import Mathlib

/-!
Verification of the PathMentor learning-path generation pipeline
(`src/backend`): query generation (`services/query_generator.py`),
multi-source fetch orchestration (`services/scraper_manager.py`),
resource ranking/filtering/diversification (`services/ranking_service.py`)
and path assembly (`services/path_builder.py`), together with the
endpoint composition in `main.py`.

Modelling conventions:
* Python floats are modelled as exact rationals (`ℚ`); the score weights
  and thresholds in the source are small decimal literals, exact in `ℚ`.
* `math.log10` is an external real-valued function; it enters only through
  the popularity factor and is passed as an explicit parameter
  `log10 : Int → ℚ` of the ranking definitions.
* `random.uniform(0.3, 1.0)` inside `_calculate_recency_score` draws one
  value per scored resource that has a truthy `published_date`; the draws
  are modelled as an explicit stream `rand : Nat → ℚ` indexed by the
  number of draws consumed so far.
* `uuid.uuid4()` and `datetime.utcnow()` inside `build_learning_path` are
  modelled as explicit `pathId`/`createdAt` parameters.
* Python truthiness on optional/str fields (`if resource.rating:` etc.) is
  modelled field-by-field (`none`/`0`/`""` are falsy).
* Async orchestration (`asyncio.gather`) buffers results per task; the
  embedding is the corresponding deterministic per-source computation.
-/

namespace PathMentor

/-! ## Data model (`models.py`) -/

/-- `ExperienceLevel` enum from `models.py`. -/
inductive ExperienceLevel
  | beginner
  | intermediate
  | advanced
deriving DecidableEq, Repr

/-- `LearningStyle` enum from `models.py`. -/
inductive LearningStyle
  | visual
  | auditory
  | hands_on
  | reading
deriving DecidableEq, Repr

/-- `LearningGoal` enum from `models.py`. -/
inductive LearningGoal
  | skill_building
  | career_change
  | certification
  | hobby
  | academic
deriving DecidableEq, Repr

/-- The `.value` string of an `ExperienceLevel` member. -/
def levelValue : ExperienceLevel → String
  | .beginner => "beginner"
  | .intermediate => "intermediate"
  | .advanced => "advanced"

/-- The `.value` string of a `LearningStyle` member. -/
def styleValue : LearningStyle → String
  | .visual => "visual"
  | .auditory => "auditory"
  | .hands_on => "hands_on"
  | .reading => "reading"

/-- The `.value` string of a `LearningGoal` member. -/
def goalValue : LearningGoal → String
  | .skill_building => "skill_building"
  | .career_change => "career_change"
  | .certification => "certification"
  | .hobby => "hobby"
  | .academic => "academic"

/-- `UserLearningProfile` pydantic model from `models.py`. -/
structure UserLearningProfile where
  goal : LearningGoal
  experience_level : ExperienceLevel
  topic : String
  learning_style : LearningStyle
  time_commitment : Option Int := none
  preferred_duration : Option String := none
  user_id : Option String := none
deriving DecidableEq, Repr

/-- `LearningResource` pydantic model from `models.py`. -/
structure LearningResource where
  title : String
  description : String
  url : String
  source : String
  duration : Option String := none
  difficulty : Option String := none
  rating : Option ℚ := none
  thumbnail : Option String := none
  author : Option String := none
  view_count : Option Int := none
  published_date : Option String := none
  tags : List String := []
deriving DecidableEq, Repr

/-- `SearchQuery` pydantic model from `models.py`. -/
structure SearchQuery where
  query : String
  source : String
  difficulty : String
  content_type : String := "all"
deriving DecidableEq, Repr

/-- `LearningPathStep` pydantic model from `models.py`. -/
structure LearningPathStep where
  step_number : Nat
  title : String
  description : String
  estimated_duration : String
  resources : List LearningResource
  prerequisites : List String := []
  learning_objectives : List String := []
deriving DecidableEq, Repr

/-- `LearningPath` pydantic model from `models.py`. -/
structure LearningPath where
  path_id : String
  user_profile : UserLearningProfile
  title : String
  description : String
  total_duration : String
  difficulty_level : String
  steps : List LearningPathStep
  created_at : String
  tags : List String := []
deriving DecidableEq, Repr

/-! ## String helpers modelling Python's `str` operations (ASCII fragment) -/

/-- Python `str.lower()` (ASCII fragment, via `Char.toLower`). -/
def lowerStr (s : String) : String :=
  String.mk (s.data.map Char.toLower)

/-- Whether the first list is a prefix of the second (by `==` on chars). -/
def charsStartWith : List Char → List Char → Bool
  | [], _ => true
  | _ :: _, [] => false
  | n :: ns, h :: hs => n == h && charsStartWith ns hs

/-- Whether `needle` occurs as a contiguous sublist of `hay`. -/
def charsContain (needle : List Char) : List Char → Bool
  | [] => charsStartWith needle []
  | c :: t => charsStartWith needle (c :: t) || charsContain needle t

/-- Python's substring test `needle in hay`. -/
def inStr (needle hay : String) : Bool :=
  charsContain needle.data hay.data

/-! ## QueryGenerator (`services/query_generator.py`) -/

/-- `QueryGenerator.difficulty_modifiers` table. -/
def difficulty_modifiers : ExperienceLevel → List String
  | .beginner =>
      ["beginner", "introduction", "basics", "tutorial", "getting started", "fundamentals"]
  | .intermediate =>
      ["intermediate", "practical", "projects", "hands-on", "implementation"]
  | .advanced =>
      ["advanced", "expert", "mastery", "deep dive", "professional", "complex"]

/-- `QueryGenerator.style_modifiers` table. -/
def style_modifiers : LearningStyle → List String
  | .visual => ["visual", "diagram", "infographic", "chart", "demonstration"]
  | .auditory => ["explained", "lecture", "podcast", "audio", "discussion"]
  | .hands_on => ["project", "tutorial", "coding", "practice", "workshop", "lab"]
  | .reading => ["guide", "documentation", "article", "book", "text"]

/-- `QueryGenerator.goal_modifiers` table. -/
def goal_modifiers : LearningGoal → List String
  | .skill_building => ["skills", "techniques", "methods", "practical"]
  | .career_change => ["career", "job", "employment", "professional", "industry"]
  | .certification => ["certification", "exam", "test", "credential", "official"]
  | .hobby => ["fun", "hobby", "personal", "creative", "interesting"]
  | .academic => ["academic", "theory", "research", "study", "course"]

/-- `QueryGenerator._generate_youtube_queries`.  The Python code indexes
`difficulty_mods[0]`; the tables above are never empty, modelled with
`headD ""`. -/
def generateYoutubeQueries (topic : String) (diffMods styleMods _goalMods : List String) :
    List SearchQuery :=
  let currentYear := "2024"
  let basic := (diffMods.take 2).map (fun dm =>
    { query := topic ++ " " ++ dm ++ " tutorial " ++ currentYear
      source := "youtube", difficulty := dm, content_type := "tutorial" })
  let styleQs := (styleMods.take 2).map (fun sm =>
    { query := topic ++ " " ++ sm ++ " course"
      source := "youtube", difficulty := diffMods.headD "", content_type := "course" })
  let projectQs :=
    if styleMods.contains "project" || styleMods.any (fun m => inStr "hands" m) then
      [{ query := topic ++ " project " ++ diffMods.headD "" ++ " " ++ currentYear
         source := "youtube", difficulty := diffMods.headD "", content_type := "project" }]
    else []
  basic ++ styleQs ++ projectQs

/-- `QueryGenerator._generate_udemy_queries`. -/
def generateUdemyQueries (topic : String) (diffMods goalMods : List String) :
    List SearchQuery :=
  ((diffMods.take 2).map (fun dm =>
    { query := topic ++ " " ++ dm ++ " complete course"
      source := "udemy", difficulty := dm, content_type := "course" })) ++
  ((goalMods.take 2).map (fun gm =>
    { query := topic ++ " " ++ gm
      source := "udemy", difficulty := diffMods.headD "", content_type := "course" }))

/-- `QueryGenerator._generate_reddit_queries`. -/
def generateRedditQueries (topic : String) (diffMods goalMods : List String) :
    List SearchQuery :=
  [{ query := topic ++ " learning path " ++ diffMods.headD ""
     source := "reddit", difficulty := diffMods.headD "", content_type := "discussion" },
   { query := "best " ++ topic ++ " resources " ++ diffMods.headD ""
     source := "reddit", difficulty := diffMods.headD "", content_type := "recommendations" }] ++
  (if goalMods.isEmpty then []
   else
     [{ query := topic ++ " " ++ goalMods.headD "" ++ " advice"
        source := "reddit", difficulty := diffMods.headD "", content_type := "advice" }])

/-- `QueryGenerator.generate_queries`: youtube, udemy and reddit queries
concatenated in that order.  The source performs no check on
`profile.topic`. -/
def generateQueries (profile : UserLearningProfile) : List SearchQuery :=
  let baseTopic := profile.topic
  let diffMods := difficulty_modifiers profile.experience_level
  let styleMods := style_modifiers profile.learning_style
  let goalMods := goal_modifiers profile.goal
  generateYoutubeQueries baseTopic diffMods styleMods goalMods ++
    generateUdemyQueries baseTopic diffMods goalMods ++
    generateRedditQueries baseTopic diffMods goalMods

/-! ## RankingService (`services/ranking_service.py`) -/

/-- Python's two-argument `min` (used for the factor caps); equal to
`min` on `ℚ` but kernel-executable. -/
def pyMin (a b : ℚ) : ℚ :=
  if a ≤ b then a else b

/-- Python truthiness of `Optional[float]`: `None` and `0` are falsy. -/
def optTruthyQ : Option ℚ → Bool
  | none => false
  | some q => q != 0

/-- Python truthiness of `Optional[int]`: `None` and `0` are falsy. -/
def optTruthyZ : Option Int → Bool
  | none => false
  | some n => n != 0

/-- Python truthiness of `Optional[str]`: `None` and `""` are falsy. -/
def optTruthyS : Option String → Bool
  | none => false
  | some s => s != ""

/-- `RankingService.difficulty_preferences`, looked up with default `0.0`
(the source uses `difficulty_prefs.get(resource.difficulty.lower(), 0.0)`). -/
def difficulty_preferences (level : ExperienceLevel) (d : String) : ℚ :=
  match level with
  | .beginner =>
      if d = "beginner" then 1 else if d = "intermediate" then 3 / 10
      else if d = "advanced" then 1 / 10 else 0
  | .intermediate =>
      if d = "beginner" then 5 / 10 else if d = "intermediate" then 1
      else if d = "advanced" then 7 / 10 else 0
  | .advanced =>
      if d = "beginner" then 2 / 10 else if d = "intermediate" then 6 / 10
      else if d = "advanced" then 1 else 0

/-- `RankingService._calculate_recency_score`: falsy `published_date` gives
the default `0.5`; otherwise the source returns `random.uniform(0.3, 1.0)`
("placeholder implementation"), modelled by the explicit draw `randVal`.
The `try` body cannot raise, so the `except` branch is dead. -/
def calcRecencyScore (published_date : Option String) (randVal : ℚ) : ℚ :=
  if !(optTruthyS published_date) then 5 / 10 else randVal

/-- Experience-level keyword table inside
`RankingService._calculate_relevance_score`. -/
def expKeywords : ExperienceLevel → List String
  | .beginner => ["beginner", "intro", "basic", "fundamentals", "getting started"]
  | .intermediate => ["intermediate", "practical", "hands-on", "project"]
  | .advanced => ["advanced", "expert", "deep", "complex", "professional"]

/-- `RankingService._calculate_relevance_score`. -/
def calcRelevanceScore (r : LearningResource) (profile : UserLearningProfile) : ℚ :=
  let topicLower := lowerStr profile.topic
  let relTitle : ℚ := if inStr topicLower (lowerStr r.title) then 5 / 10 else 0
  let relDesc : ℚ :=
    if r.description != "" && inStr topicLower (lowerStr r.description) then 3 / 10 else 0
  let relTags : ℚ := if r.tags.any (fun t => inStr topicLower (lowerStr t)) then 1 / 10 else 0
  let contentText := lowerStr (r.title ++ " " ++ r.description)
  let relKw : ℚ :=
    if (expKeywords profile.experience_level).any (fun k => inStr k contentText) then 1 / 10
    else 0
  pyMin (relTitle + relDesc + relTags + relKw) 1

/-- `RankingService._calculate_difficulty_bonus`. -/
def calcDifficultyBonus (r : LearningResource) (profile : UserLearningProfile) : ℚ :=
  if !(optTruthyS r.difficulty) then 0
  else difficulty_preferences profile.experience_level (lowerStr (r.difficulty.getD "")) * (2 / 10)

/-- `RankingService._calculate_resource_score`.  Weights are the
`__init__` constants (0.3, 0.2, 0.2, 0.3); `log10` stands for
`math.log10` (applied to `view_count + 1`, positive at every call site);
`randVal` is the recency draw. -/
def calcResourceScore (log10 : Int → ℚ) (randVal : ℚ)
    (r : LearningResource) (profile : UserLearningProfile) : ℚ :=
  let ratingTerm : ℚ :=
    if optTruthyQ r.rating then pyMin (r.rating.getD 0 / 5) 1 * (3 / 10) else 0
  let viewTerm : ℚ :=
    if optTruthyZ r.view_count then pyMin (log10 (r.view_count.getD 0 + 1) / 6) 1 * (2 / 10)
    else 0
  let recencyTerm : ℚ := calcRecencyScore r.published_date randVal * (2 / 10)
  let relevanceTerm : ℚ := calcRelevanceScore r profile * (3 / 10)
  (ratingTerm + viewTerm + recencyTerm + relevanceTerm) *
    (1 + calcDifficultyBonus r profile)

/-- Whether scoring a resource consumes a random recency draw. -/
def pubTruthy (r : LearningResource) : Bool :=
  optTruthyS r.published_date

/-- The scored list built by the loop in `RankingService.rank_resources`:
`k` counts the `random.uniform` draws consumed so far. -/
def scoreResources (log10 : Int → ℚ) (rand : Nat → ℚ) (profile : UserLearningProfile) :
    List LearningResource → Nat → List (LearningResource × ℚ)
  | [], _ => []
  | r :: rs, k =>
      (r, calcResourceScore log10 (rand k) r profile) ::
        scoreResources log10 rand profile rs (k + (if pubTruthy r then 1 else 0))

/-- One step of stable descending insertion: `x` is placed before the
first element whose score is at most `x`'s (`x` is earlier in the
original order than everything in the list). -/
def insertScoredDesc (x : LearningResource × ℚ) :
    List (LearningResource × ℚ) → List (LearningResource × ℚ)
  | [] => [x]
  | y :: ys => if y.2 ≤ x.2 then x :: y :: ys else y :: insertScoredDesc x ys

/-- Stable sort by descending score, modelling
`scored_resources.sort(key=lambda x: x[1], reverse=True)` (Python's sort
is stable: ties keep input order). -/
def sortScoredDesc : List (LearningResource × ℚ) → List (LearningResource × ℚ)
  | [] => []
  | x :: xs => insertScoredDesc x (sortScoredDesc xs)

/-- `RankingService.rank_resources`. -/
def rankResources (log10 : Int → ℚ) (rand : Nat → ℚ)
    (resources : List LearningResource) (profile : UserLearningProfile) :
    List LearningResource :=
  if resources.isEmpty then []
  else (sortScoredDesc (scoreResources log10 rand profile resources 0)).map (fun p => p.1)

/-- `RankingService.filter_by_quality_threshold`: keep a resource iff its
rating is `None` or at least the threshold. -/
def filterByQualityThreshold (resources : List LearningResource) (minRating : ℚ) :
    List LearningResource :=
  resources.filter (fun r =>
    match r.rating with
    | none => true
    | some q => minRating ≤ q)

/-- Count lookup in the `source_counts` dict of
`RankingService.diversify_results` (missing key counts as `0`). -/
def countLookup (counts : List (String × Nat)) (s : String) : Nat :=
  match counts.find? (fun c => c.1 == s) with
  | some c => c.2
  | none => 0

/-- Increment (or create) the per-source counter. -/
def countBump (counts : List (String × Nat)) (s : String) : List (String × Nat) :=
  if counts.any (fun c => c.1 == s) then
    counts.map (fun c => if c.1 == s then (c.1, c.2 + 1) else c)
  else counts ++ [(s, 1)]

/-- The loop of `RankingService.diversify_results`. -/
def diversifyGo (maxPerSource : Nat) :
    List LearningResource → List (String × Nat) → List LearningResource
  | [], _ => []
  | r :: rs, counts =>
      if countLookup counts r.source < maxPerSource then
        r :: diversifyGo maxPerSource rs (countBump counts r.source)
      else diversifyGo maxPerSource rs counts

/-- `RankingService.diversify_results`. -/
def diversifyResults (resources : List LearningResource) (maxPerSource : Nat) :
    List LearningResource :=
  diversifyGo maxPerSource resources []

/-! ## ScraperManager (`services/scraper_manager.py`)

A source client's `search` either returns a list of resources or raises;
the client behaviour is a parameter `search : SearchFun`. -/

/-- Behaviour of the per-source clients: `search source query` returns
resources or raises (`Except.error`). -/
abbrev SearchFun := String → SearchQuery → Except Unit (List LearningResource)

/-- The keys of `ScraperManager.source_clients`. -/
def knownSources : List String :=
  ["youtube", "udemy", "reddit"]

/-- The per-query loop of `ScraperManager._fetch_from_source`: each
query's exception is caught (`continue`), so a failing query contributes
nothing. -/
def collectResults (search : SearchFun) (source : String) :
    List SearchQuery → List LearningResource
  | [] => []
  | q :: qs =>
      (match search source q with
       | .ok rs => rs
       | .error _ => []) ++ collectResults search source qs

/-- The `unique_resources` dict of `ScraperManager._fetch_from_source`:
keep the first occurrence of each url (dict insertion order). -/
def dedupByUrl (seen : List String) : List LearningResource → List LearningResource
  | [] => []
  | r :: rs =>
      if r.url ∈ seen then dedupByUrl seen rs
      else r :: dedupByUrl (r.url :: seen) rs

/-- `ScraperManager._fetch_from_source`: unknown sources return `[]`
(`if not client`), otherwise the per-query results are concatenated and
deduplicated by url. -/
def fetchFromSource (search : SearchFun) (source : String) (queries : List SearchQuery) :
    List LearningResource :=
  if source ∈ knownSources then dedupByUrl [] (collectResults search source queries)
  else []

/-- One assignment into the `queries_by_source` dict: append to an
existing key's list or insert a new key at the end. -/
def groupAdd (acc : List (String × List SearchQuery)) (q : SearchQuery) :
    List (String × List SearchQuery) :=
  if q.source ∈ acc.map (fun g => g.1) then
    acc.map (fun g => if g.1 = q.source then (g.1, g.2 ++ [q]) else g)
  else acc ++ [(q.source, [q])]

/-- The `queries_by_source` grouping loop of
`ScraperManager.fetch_all_resources`. -/
def groupBySource (queries : List SearchQuery) : List (String × List SearchQuery) :=
  queries.foldl groupAdd []

/-- Python dict assignment `results[source] = value` on an
insertion-ordered association list. -/
def dictSet (res : List (String × List LearningResource)) (key : String)
    (v : List LearningResource) : List (String × List LearningResource) :=
  if key ∈ res.map (fun e => e.1) then
    res.map (fun e => if e.1 = key then (e.1, v) else e)
  else res ++ [(key, v)]

/-- The initial `results` dict of `ScraperManager.fetch_all_resources`. -/
def initialResults : List (String × List LearningResource) :=
  [("youtube", []), ("udemy", []), ("reddit", [])]

/-- The combination loop of `ScraperManager.fetch_all_resources`:
`for i, (source, _) in enumerate(queries_by_source.items()): if i <
len(source_results) ...: results[source] = source_results[i]`. -/
def combineResults (groups : List (String × List SearchQuery))
    (srcResults : List (List LearningResource)) : List (String × List LearningResource) :=
  (groups.enum).foldl
    (fun res ig =>
      if ig.1 < srcResults.length then dictSet res ig.2.1 (srcResults.getD ig.1 [])
      else res)
    initialResults

/-- `ScraperManager.fetch_all_resources`: group queries by source, run one
task per known source (`asyncio.gather` buffers results in task order),
then combine.  `_fetch_from_source` is total here, so the
`isinstance(.., Exception)` guard never fires. -/
def fetchAllResources (search : SearchFun) (queries : List SearchQuery) :
    List (String × List LearningResource) :=
  combineResults (groupBySource queries)
    (((groupBySource queries).filter (fun g => decide (g.1 ∈ knownSources))).map
      (fun g => fetchFromSource search g.1 g.2))

/-- The merge in `main.generate_learning_path`: concatenate the per-source
lists of the `raw_resources` dict in its iteration order. -/
def mergedResources (search : SearchFun) (queries : List SearchQuery) :
    List LearningResource :=
  ((fetchAllResources search queries).map (fun e => e.2)).flatten

/-! ## PathBuilder (`services/path_builder.py`) -/

/-- One entry of `PathBuilder.step_templates`. -/
structure StepTemplate where
  title : String
  description : String
  order : Nat
deriving DecidableEq, Repr

/-- `PathBuilder.step_templates`. -/
def step_templates : ExperienceLevel → List StepTemplate
  | .beginner =>
      [⟨"Introduction and Fundamentals", "Get familiar with basic concepts", 1⟩,
       ⟨"Core Concepts", "Learn the essential building blocks", 2⟩,
       ⟨"Practical Examples", "See concepts in action", 3⟩,
       ⟨"Hands-On Practice", "Apply what you've learned", 4⟩,
       ⟨"First Project", "Build something real", 5⟩]
  | .intermediate =>
      [⟨"Review and Foundation", "Solidify your existing knowledge", 1⟩,
       ⟨"Advanced Concepts", "Dive deeper into complex topics", 2⟩,
       ⟨"Best Practices", "Learn industry standards", 3⟩,
       ⟨"Real-World Projects", "Build complex applications", 4⟩,
       ⟨"Optimization and Performance", "Make it better and faster", 5⟩]
  | .advanced =>
      [⟨"Advanced Techniques", "Master complex methodologies", 1⟩,
       ⟨"Architecture and Design", "Learn system design principles", 2⟩,
       ⟨"Performance Optimization", "Optimize for scale and efficiency", 3⟩,
       ⟨"Expert-Level Projects", "Build production-ready systems", 4⟩,
       ⟨"Teaching and Leadership", "Share knowledge and lead teams", 5⟩]

/-- The `"total"` entries of `PathBuilder.duration_estimates`. -/
def durationEstimatesTotal : ExperienceLevel → String
  | .beginner => "6-10 weeks"
  | .intermediate => "8-12 weeks"
  | .advanced => "10-16 weeks"

/-- Python `str.replace(a, b)` for a single-character pattern and
replacement (the only form the source uses: `.replace("_", " ")`). -/
def replaceChar (s : String) (a b : Char) : String :=
  String.mk (s.data.map (fun c => if c == a then b else c))

/-- Python `str.title()` (ASCII fragment): uppercase a letter that does
not follow a letter, lowercase the rest. -/
def titleCaseChars : List Char → Bool → List Char
  | [], _ => []
  | c :: cs, prevAlpha =>
      (if c.isAlpha then (if prevAlpha then c.toLower else c.toUpper) else c) ::
        titleCaseChars cs c.isAlpha

/-- Python `str.title()` on a whole string. -/
def pyTitle (s : String) : String :=
  String.mk (titleCaseChars s.data false)

/-- `PathBuilder._generate_path_title`. -/
def generatePathTitle (profile : UserLearningProfile) : String :=
  pyTitle profile.topic ++ " Learning Path for " ++
    pyTitle (levelValue profile.experience_level) ++ " (" ++
    pyTitle (replaceChar (goalValue profile.goal) '_' ' ') ++ ")"

/-- `PathBuilder._generate_path_description` (`if user_profile.time_commitment:`
is Python truthiness, so `0` hours adds no suffix). -/
def generatePathDescription (profile : UserLearningProfile) (resourceCount : Nat) : String :=
  let topic := profile.topic
  let level := levelValue profile.experience_level
  let goal := replaceChar (goalValue profile.goal) '_' ' '
  let d :=
    "A comprehensive " ++ level ++ "-level learning path for " ++ topic ++ ", " ++
    "designed for " ++ goal ++ ". This path includes " ++ toString resourceCount ++
    " carefully " ++ "curated resources including videos, tutorials, and courses to help you " ++
    "master " ++ topic ++ " effectively."
  match profile.time_commitment with
  | some n => if n != 0 then d ++ " Designed for " ++ toString n ++ " hours per week." else d
  | none => d

/-- `PathBuilder._generate_learning_objectives` (the `resources` argument
is accepted but unused by the source). -/
def generateLearningObjectives (template : StepTemplate) (profile : UserLearningProfile)
    (_resources : List LearningResource) : List String :=
  let topic := profile.topic
  let stepTitle := lowerStr template.title
  if inStr "introduction" stepTitle || inStr "fundamentals" stepTitle then
    ["Understand the basic concepts of " ++ topic,
     "Learn the fundamental terminology and principles",
     "Get familiar with the " ++ topic ++ " ecosystem"]
  else if inStr "core concepts" stepTitle then
    ["Master the essential " ++ topic ++ " concepts",
     "Learn how different components work together",
     "Understand best practices and common patterns"]
  else if inStr "practical" stepTitle || inStr "examples" stepTitle then
    ["See " ++ topic ++ " concepts applied in real scenarios",
     "Understand common use cases and applications",
     "Learn to identify when to use different approaches"]
  else if inStr "hands-on" stepTitle || inStr "practice" stepTitle then
    ["Practice implementing " ++ topic ++ " solutions",
     "Build confidence through hands-on exercises",
     "Develop problem-solving skills"]
  else if inStr "project" stepTitle then
    ["Apply " ++ topic ++ " knowledge to build a complete project",
     "Learn project organization and structure",
     "Practice debugging and troubleshooting"]
  else
    ["Advance your knowledge of " ++ topic,
     "Learn new techniques and approaches",
     "Build practical skills and experience"]

/-- `PathBuilder._generate_prerequisites`. -/
def generatePrerequisites (template : StepTemplate) (stepIndex : Nat) : List String :=
  if stepIndex = 0 then []
  else
    let base := ["Complete Step " ++ toString stepIndex]
    let stepTitle := lowerStr template.title
    if inStr "advanced" stepTitle then base ++ ["Strong understanding of core concepts"]
    else if inStr "project" stepTitle then base ++ ["Practical experience with the fundamentals"]
    else base

/-- `PathBuilder._estimate_step_duration`.  `int(x * 1.5)` / `int(x * 0.7)`
on a non-negative value is modelled as the exact rational floor. -/
def estimateStepDuration (resources : List LearningResource)
    (profile : UserLearningProfile) : String :=
  if resources.isEmpty then "1 week"
  else
    let baseDays : Int := resources.length * 2
    let adjDays : Int :=
      match profile.experience_level with
      | .beginner => Rat.floor ((baseDays : ℚ) * (3 / 2))
      | .advanced => Rat.floor ((baseDays : ℚ) * (7 / 10))
      | .intermediate => baseDays
    let weeks : Int := max 1 (adjDays / 7)
    if weeks = 1 then "1 week" else toString weeks ++ " weeks"

/-- First-occurrence dedup of the tag list.  The source uses
`list(set(tags))`, whose element order is interpreter-dependent but fixed
within a process; it is modelled as first-occurrence order. -/
def dedupStr (seen : List String) : List String → List String
  | [] => []
  | s :: rest =>
      if s ∈ seen then dedupStr seen rest
      else s :: dedupStr (s :: seen) rest

/-- `PathBuilder._generate_tags`. -/
def generateTags (profile : UserLearningProfile) : List String :=
  let topicLower := lowerStr profile.topic
  let tags :=
    [topicLower, levelValue profile.experience_level,
     styleValue profile.learning_style, goalValue profile.goal]
  let tags :=
    if inStr "programming" topicLower || inStr "coding" topicLower then tags ++ ["programming"]
    else tags
  let tags := if inStr "web" topicLower then tags ++ ["web-development"] else tags
  let tags := if inStr "data" topicLower then tags ++ ["data-science"] else tags
  dedupStr [] tags

/-- `PathBuilder._create_steps`: `resources_per_step = max(1, n // k)`;
step `i` takes the slice `[i*rps, (i+1)*rps)` of the ranked list, except
the last step, which takes everything from `i*rps` on. -/
def createSteps (templates : List StepTemplate) (resources : List LearningResource)
    (profile : UserLearningProfile) : List LearningPathStep :=
  let resourcesPerStep := max 1 (resources.length / templates.length)
  (templates.enum).map (fun it =>
    let i := it.1
    let template := it.2
    let startIdx := i * resourcesPerStep
    let stepResources :=
      if i = templates.length - 1 then resources.drop startIdx
      else (resources.drop startIdx).take resourcesPerStep
    { step_number := template.order
      title := template.title
      description := template.description
      estimated_duration := estimateStepDuration stepResources profile
      resources := stepResources
      prerequisites := generatePrerequisites template i
      learning_objectives := generateLearningObjectives template profile stepResources })

/-- `PathBuilder.build_learning_path`.  `uuid.uuid4()` and
`datetime.utcnow().isoformat()` are the `pathId` / `createdAt`
parameters: fresh per run, not derived from the inputs. -/
def buildLearningPath (pathId createdAt : String) (profile : UserLearningProfile)
    (rankedResources : List LearningResource) : LearningPath :=
  let templates := step_templates profile.experience_level
  let steps := createSteps templates rankedResources profile
  { path_id := pathId
    user_profile := profile
    title := generatePathTitle profile
    description := generatePathDescription profile rankedResources.length
    total_duration := durationEstimatesTotal profile.experience_level
    difficulty_level := levelValue profile.experience_level
    steps := steps
    created_at := createdAt
    tags := generateTags profile }

/-! ## The endpoint pipeline (`main.generate_learning_path`) -/

/-- The `generate_learning_path` endpoint body: generate queries (400 if
empty), fetch and merge (404 if empty), rank, filter with
`min_rating=2.0`, diversify with `max_per_source=5`, build the path. -/
def runPipeline (search : SearchFun) (profile : UserLearningProfile)
    (pathId createdAt : String) (log10 : Int → ℚ) (rand : Nat → ℚ) :
    Except String LearningPath :=
  let queries := generateQueries profile
  if queries.isEmpty then
    .error "400: Unable to generate search queries from user profile"
  else
    let allResources := mergedResources search queries
    if allResources.isEmpty then
      .error "404: No learning resources found for the given profile"
    else
      let ranked := rankResources log10 rand allResources profile
      let filtered := filterByQualityThreshold ranked 2
      let diversified := diversifyResults filtered 5
      .ok (buildLearningPath pathId createdAt profile diversified)

/-! ## Basic facts about the query generator -/

/-- A profile used for concrete counterexamples. -/
def sampleProfile : UserLearningProfile :=
  { goal := .skill_building, experience_level := .beginner, topic := "React",
    learning_style := .visual }

/-- Claim C2 (counterexample): `generate_queries` performs no empty-topic
check; for a profile whose topic is the empty string it returns a
non-empty query list (11 queries for this profile), so the claimed
"empty topic ⇒ empty list" contract is false on the code. -/
theorem claim_C2_counterexample :
    generateQueries { sampleProfile with topic := "" } ≠ [] := by
  decide

set_option maxHeartbeats 1000000 in
/-- Claim C2 (amended): `generate_queries` returns a non-empty list of
search queries for every profile, whether or not `profile.topic` is
empty; no empty-topic guard (and no I/O) exists in the function. -/
theorem claim_C2_amended (profile : UserLearningProfile) :
    generateQueries profile ≠ [] := by
  rcases profile with ⟨g, e, t, s, tc, pd, ui⟩
  cases g <;> cases e <;> cases s <;>
    simp +decide [generateQueries, generateYoutubeQueries, generateUdemyQueries,
      generateRedditQueries, difficulty_modifiers, style_modifiers, goal_modifiers]

/-- Claim C2 (amended) witness at a concrete profile. -/
theorem claim_C2_amended_witness :
    generateQueries sampleProfile ≠ [] :=
  claim_C2_amended sampleProfile

/-- Claim C8 (counterexample): for a hands-on profile the youtube source
receives 5 search queries (the project-based query fires because
`"project"` is among the hands-on style modifiers), violating the claimed
upper bound of 4. -/
theorem claim_C8_counterexample :
    ¬ ((generateQueries { sampleProfile with learning_style := .hands_on }).countP
        (fun q => q.source == "youtube") ≤ 4) := by
  decide

set_option maxHeartbeats 1600000 in
/-- Claim C8 (amended): for every profile, youtube receives 4 search
queries — 5 when the learning style is hands-on — udemy receives 4 and
reddit receives 3; so each source receives at least 2 and at most 5
(not at most 4 as claimed). -/
theorem claim_C8_amended (profile : UserLearningProfile) :
    (generateQueries profile).countP (fun q => q.source == "youtube") =
      (if profile.learning_style = .hands_on then 5 else 4) ∧
    (generateQueries profile).countP (fun q => q.source == "udemy") = 4 ∧
    (generateQueries profile).countP (fun q => q.source == "reddit") = 3 := by
  rcases profile with ⟨g, e, t, s, tc, pd, ui⟩
  cases g <;> cases e <;> cases s <;>
    simp +decide [generateQueries, generateYoutubeQueries, generateUdemyQueries,
      generateRedditQueries, difficulty_modifiers, style_modifiers, goal_modifiers,
      List.countP_cons, List.countP_append]

/-- Claim C8 (amended) witness at a concrete profile. -/
theorem claim_C8_amended_witness :
    (generateQueries sampleProfile).countP (fun q => q.source == "youtube") =
      (if sampleProfile.learning_style = .hands_on then 5 else 4) ∧
    (generateQueries sampleProfile).countP (fun q => q.source == "udemy") = 4 ∧
    (generateQueries sampleProfile).countP (fun q => q.source == "reddit") = 3 :=
  claim_C8_amended sampleProfile

/-! ## Path assembly claims -/

/-- A minimal concrete resource for counterexamples and witnesses. -/
def sampleResource : LearningResource :=
  { title := "React tutorial", description := "a course", url := "https://x/1",
    source := "youtube" }

/-- Claim C4 (counterexample): with n = 1 resource the code gives the
single resource to step 1 (`resources_per_step = max(1, 1 // 5) = 1`) and
nothing to step 5, while the claim's distribution (each of the first four
steps gets `floor(1/5) = 0`, the last step gets the remainder 1) would put
it in step 5. -/
theorem claim_C4_counterexample :
    ((buildLearningPath "pid" "t0" sampleProfile [sampleResource]).steps.map
        (fun s => s.resources.length) = [1, 0, 0, 0, 0]) ∧
    ¬ ((buildLearningPath "pid" "t0" sampleProfile [sampleResource]).steps.map
        (fun s => s.resources.length) = [0, 0, 0, 0, 1]) := by
  constructor
  · decide
  · decide

/-- Claim C4 (amended): with `r = max(1, floor(n/5))` (not `floor(n/5)`),
each of the first four steps receives the ranked slice `[i*r, (i+1)*r)`
and the last step receives everything from `4*r` on.  For `n ≥ 5` this is
exactly the claimed distribution; for `0 < n < 5` the first `n` steps get
one resource each and trailing steps get zero — trailing steps are still
emitted, but the claimed "first k-1 steps get floor(n/k)" fails. -/
theorem claim_C4_amended (pathId createdAt : String) (profile : UserLearningProfile)
    (resources : List LearningResource) :
    (buildLearningPath pathId createdAt profile resources).steps.map (fun s => s.resources) =
      [resources.take (max 1 (resources.length / 5)),
       (resources.drop (1 * max 1 (resources.length / 5))).take (max 1 (resources.length / 5)),
       (resources.drop (2 * max 1 (resources.length / 5))).take (max 1 (resources.length / 5)),
       (resources.drop (3 * max 1 (resources.length / 5))).take (max 1 (resources.length / 5)),
       resources.drop (4 * max 1 (resources.length / 5))] := by
  cases h : profile.experience_level <;>
    simp [buildLearningPath, createSteps, step_templates, h, List.enum, List.enumFrom]

/-- Claim C6: for every profile and resource list (any length, empty
included) `build_learning_path` is total (the embedding is a total
function — no exception path exists) and returns steps numbered 1..5
contiguously, step 1 with an empty prerequisite list, every later step
with "Complete Step i-1" as its first prerequisite, and every step with
exactly three (hence at least one) learning objectives. -/
theorem claim_C6 (pathId createdAt : String) (profile : UserLearningProfile)
    (resources : List LearningResource) :
    (buildLearningPath pathId createdAt profile resources).steps.map
        (fun s => s.step_number) = [1, 2, 3, 4, 5] ∧
    (buildLearningPath pathId createdAt profile resources).steps.map
        (fun s => s.prerequisites.take 1) =
      [[], ["Complete Step 1"], ["Complete Step 2"], ["Complete Step 3"],
       ["Complete Step 4"]] ∧
    (buildLearningPath pathId createdAt profile resources).steps.map
        (fun s => s.learning_objectives.length) = [3, 3, 3, 3, 3] := by
  cases h : profile.experience_level <;>
    simp +decide [buildLearningPath, createSteps, step_templates, h, List.enum,
      List.enumFrom, generatePrerequisites, generateLearningObjectives]

/-! ## Fetch-orchestration lemmas -/

theorem collectResults_append (search : SearchFun) (source : String)
    (l1 l2 : List SearchQuery) :
    collectResults search source (l1 ++ l2) =
      collectResults search source l1 ++ collectResults search source l2 := by
  induction l1 with
  | nil => rfl
  | cons q qs ih => simp [collectResults, ih]

theorem collectResults_all_fail (search : SearchFun) (source : String)
    (qs : List SearchQuery) (hfail : ∀ q, search source q = .error ()) :
    collectResults search source qs = [] := by
  induction qs with
  | nil => rfl
  | cons q rest ih => simp [collectResults, hfail q, ih]

theorem dedupByUrl_filter (u : String) (l : List LearningResource) (seen : List String) :
    (dedupByUrl seen l).filter (fun r => r.url == u) =
      if u ∈ seen then [] else (l.filter (fun r => r.url == u)).take 1 := by
  induction l generalizing seen with
  | nil => simp [dedupByUrl]
  | cons r rs ih =>
      by_cases hseen : r.url ∈ seen
      · rw [dedupByUrl, if_pos hseen, ih]
        by_cases hu : u ∈ seen
        · simp [hu]
        · have hru : ¬(r.url == u) = true := by
            simp only [beq_iff_eq]
            intro h
            exact hu (h ▸ hseen)
          simp [hu, List.filter_cons, hru]
      · rw [dedupByUrl, if_neg hseen]
        by_cases hru : r.url = u
        · subst hru
          simp [List.filter_cons, ih, hseen]
        · have hbe : ¬(r.url == u) = true := by simp [beq_iff_eq, hru]
          rw [List.filter_cons, if_neg hbe, ih]
          by_cases hu : u ∈ seen
          · simp [hu, hru, List.filter_cons, hbe]
          · simp [hu, hru, List.filter_cons, hbe, Ne.symm hru]

theorem filter_source_eq_nil {qs : List SearchQuery} {s : String}
    (h : s ∉ qs.map (fun q => q.source)) :
    qs.filter (fun q => q.source == s) = [] := by
  rw [List.filter_eq_nil_iff]
  intro q hq
  simp only [beq_iff_eq]
  intro hqs
  exact h (hqs ▸ List.mem_map_of_mem _ hq)

theorem groupBySource_concat (qs : List SearchQuery) (q : SearchQuery) :
    groupBySource (qs ++ [q]) = groupAdd (groupBySource qs) q := by
  simp [groupBySource, List.foldl_append]

/-- Joint specification of the `queries_by_source` grouping: keys are
distinct, each key's bucket is the subsequence of queries with that
source, and the key set is exactly the set of sources occurring in the
input. -/
theorem groupBySource_spec (qs : List SearchQuery) :
    ((groupBySource qs).map (fun g => g.1)).Nodup ∧
    (∀ g ∈ groupBySource qs, g.2 = qs.filter (fun q => q.source == g.1)) ∧
    (∀ s, s ∈ (groupBySource qs).map (fun g => g.1) ↔ s ∈ qs.map (fun q => q.source)) := by
  induction qs using List.reverseRecOn with
  | nil => simp [groupBySource]
  | append_singleton qs q ih =>
      obtain ⟨hnd, hval, hmem⟩ := ih
      rw [groupBySource_concat]
      by_cases hk : q.source ∈ (groupBySource qs).map (fun g => g.1)
      · have hkeys : (groupAdd (groupBySource qs) q).map (fun g => g.1) =
            (groupBySource qs).map (fun g => g.1) := by
          rw [groupAdd, if_pos hk, List.map_map]
          apply List.map_congr_left
          intro g _
          by_cases h : g.1 = q.source <;> simp [h]
        refine ⟨hkeys ▸ hnd, ?_, ?_⟩
        · intro g' hg'
          rw [groupAdd, if_pos hk] at hg'
          obtain ⟨g, hg, rfl⟩ := List.mem_map.mp hg'
          by_cases h : g.1 = q.source
          · have hv := hval g hg
            rw [h] at hv
            simp [h, hv, List.filter_append, List.filter_cons]
          · have : ¬(q.source = g.1) := fun hc => h hc.symm
            simp [h, ← hval g hg, List.filter_append, List.filter_cons, this]
        · intro s
          rw [hkeys]
          simp only [List.map_append, List.mem_append, List.map_cons, List.map_nil,
            List.mem_singleton]
          constructor
          · intro h
            exact Or.inl ((hmem s).mp h)
          · rintro (h | h)
            · exact (hmem s).mpr h
            · exact h ▸ hk
      · have hnew : q.source ∉ qs.map (fun q' => q'.source) := fun hc => hk ((hmem _).mpr hc)
        rw [groupAdd, if_neg hk]
        refine ⟨?_, ?_, ?_⟩
        · rw [List.map_append]
          simp only [List.map_cons, List.map_nil]
          rw [List.nodup_append]
          exact ⟨hnd, List.nodup_singleton _, by simpa using fun hc => hk hc⟩
        · intro g' hg'
          rcases List.mem_append.mp hg' with hold | hnew'
          · have hne : ¬(q.source == g'.1) = true := by
              simp only [beq_iff_eq]
              intro hc
              exact hk (hc ▸ List.mem_map_of_mem _ hold)
            rw [List.filter_append, ← hval g' hold]
            simp [List.filter_cons, hne]
          · rcases List.mem_singleton.mp hnew' with rfl
            rw [List.filter_append, filter_source_eq_nil hnew]
            simp [List.filter_cons]
        · intro s
          simp only [List.map_append, List.mem_append, List.map_cons, List.map_nil,
            List.mem_singleton, hmem s]

theorem getD_append_cons {β : Type} (l1 : List β) (x : β) (l2 : List β) (d : β) :
    (l1 ++ x :: l2).getD l1.length d = x := by
  induction l1 with
  | nil => rfl
  | cons a as ih => simpa using ih

/-- When every grouped source has a task (the known-sources case), the
index-based combination loop writes each group's own fetched result. -/
theorem combineResults_aligned (F : (String × List SearchQuery) → List LearningResource) :
    ∀ (post pre : List (String × List SearchQuery))
      (res : List (String × List LearningResource)),
      (List.enumFrom pre.length post).foldl
        (fun r ig =>
          if ig.1 < ((pre ++ post).map F).length then
            dictSet r ig.2.1 (((pre ++ post).map F).getD ig.1 [])
          else r) res =
      post.foldl (fun r g => dictSet r g.1 (F g)) res := by
  intro post
  induction post with
  | nil => intro pre res; rfl
  | cons g post' ih =>
      intro pre res
      simp only [List.enumFrom, List.foldl_cons]
      have hlt : pre.length < ((pre ++ g :: post').map F).length := by
        simp [List.length_append, List.length_map]
      have hget : ((pre ++ g :: post').map F).getD pre.length [] = F g := by
        rw [List.map_append, List.map_cons]
        have := getD_append_cons (pre.map F) (F g) (post'.map F) []
        simpa [List.length_map] using this
      rw [if_pos hlt, hget]
      have happ : (pre ++ [g]) ++ post' = pre ++ g :: post' := by simp
      have := ih (pre ++ [g]) (dictSet res g.1 (F g))
      rw [happ] at this
      simpa [List.length_append] using this

theorem foldl_dictSet_congr (F F2 : (String × List SearchQuery) → List LearningResource) :
    ∀ (gs : List (String × List SearchQuery)) (res : List (String × List LearningResource)),
      (∀ g ∈ gs, F g = F2 g) →
      gs.foldl (fun r g => dictSet r g.1 (F g)) res =
        gs.foldl (fun r g => dictSet r g.1 (F2 g)) res := by
  intro gs
  induction gs with
  | nil => intro res _; rfl
  | cons g gs' ih =>
      intro res h
      simp only [List.foldl_cons]
      rw [h g (List.mem_cons_self g gs'), ih _ (fun g' hg' => h g' (List.mem_cons_of_mem _ hg'))]

/-- Evaluating the dict-write fold on the three-key initial dict when
every written key is a known source and the written value depends only
on the key. -/
theorem foldl_dictSet_eval (T : String → List LearningResource) :
    ∀ (gs : List (String × List SearchQuery)) (v1 v2 v3 : List LearningResource),
      (∀ g ∈ gs, g.1 ∈ knownSources) →
      gs.foldl (fun r g => dictSet r g.1 (T g.1))
          [("youtube", v1), ("udemy", v2), ("reddit", v3)] =
        [("youtube", if "youtube" ∈ gs.map (fun g => g.1) then T "youtube" else v1),
         ("udemy", if "udemy" ∈ gs.map (fun g => g.1) then T "udemy" else v2),
         ("reddit", if "reddit" ∈ gs.map (fun g => g.1) then T "reddit" else v3)] := by
  intro gs
  induction gs with
  | nil => intro v1 v2 v3 _; simp
  | cons g gs' ih =>
      intro v1 v2 v3 hk
      have hg : g.1 ∈ knownSources := hk g (List.mem_cons_self g gs')
      have hrest : ∀ g' ∈ gs', g'.1 ∈ knownSources :=
        fun g' h => hk g' (List.mem_cons_of_mem _ h)
      simp only [List.foldl_cons]
      have hcases : g.1 = "youtube" ∨ g.1 = "udemy" ∨ g.1 = "reddit" := by
        simpa [knownSources] using hg
      rcases hcases with h | h | h
      · have hd : dictSet [("youtube", v1), ("udemy", v2), ("reddit", v3)] g.1 (T g.1) =
            [("youtube", T "youtube"), ("udemy", v2), ("reddit", v3)] := by
          rw [h]; simp +decide [dictSet]
        rw [hd, ih _ _ _ hrest]
        simp only [List.map_cons, List.mem_cons, h]
        simp only [show ("udemy" : String) = "youtube" ↔ False from by simp,
          show ("reddit" : String) = "youtube" ↔ False from by simp, false_or, true_or, if_true, ite_self]
      · have hd : dictSet [("youtube", v1), ("udemy", v2), ("reddit", v3)] g.1 (T g.1) =
            [("youtube", v1), ("udemy", T "udemy"), ("reddit", v3)] := by
          rw [h]; simp +decide [dictSet]
        rw [hd, ih _ _ _ hrest]
        simp only [List.map_cons, List.mem_cons, h]
        simp only [show ("youtube" : String) = "udemy" ↔ False from by simp,
          show ("reddit" : String) = "udemy" ↔ False from by simp, false_or, true_or, if_true, ite_self]
      · have hd : dictSet [("youtube", v1), ("udemy", v2), ("reddit", v3)] g.1 (T g.1) =
            [("youtube", v1), ("udemy", v2), ("reddit", T "reddit")] := by
          rw [h]; simp +decide [dictSet]
        rw [hd, ih _ _ _ hrest]
        simp only [List.map_cons, List.mem_cons, h]
        simp only [show ("youtube" : String) = "reddit" ↔ False from by simp,
          show ("udemy" : String) = "reddit" ↔ False from by simp, false_or, true_or, if_true, ite_self]

/-- `fetch_all_resources` when every query's source has a client: the
result dict maps each of youtube, udemy, reddit (in that fixed order) to
`_fetch_from_source` applied to that source's queries in input order. -/
theorem fetchAllResources_eq_of_known (search : SearchFun) (queries : List SearchQuery)
    (HK : ∀ q ∈ queries, q.source ∈ knownSources) :
    fetchAllResources search queries =
      knownSources.map (fun s =>
        (s, fetchFromSource search s (queries.filter (fun q => q.source == s)))) := by
  obtain ⟨hnd, hval, hmem⟩ := groupBySource_spec queries
  have hallknown : ∀ g ∈ groupBySource queries, g.1 ∈ knownSources := by
    intro g hg
    obtain ⟨q, hq, hqs⟩ := List.mem_map.mp ((hmem g.1).mp (List.mem_map_of_mem _ hg))
    exact hqs ▸ HK q hq
  have htasks : (groupBySource queries).filter (fun g => decide (g.1 ∈ knownSources)) =
      groupBySource queries := by
    apply List.filter_eq_self.mpr
    intro g hg
    exact decide_eq_true (hallknown g hg)
  rw [fetchAllResources, htasks, combineResults]
  have halign := combineResults_aligned (fun g => fetchFromSource search g.1 g.2)
    (groupBySource queries) [] initialResults
  simp only [List.nil_append, List.length_nil] at halign
  rw [show (groupBySource queries).enum = List.enumFrom 0 (groupBySource queries) from rfl,
    halign]
  rw [foldl_dictSet_congr _
      (fun g => fetchFromSource search g.1 (queries.filter (fun q => q.source == g.1))) _ _
      (fun g hg => by rw [hval g hg]),
    show initialResults = [("youtube", []), ("udemy", []), ("reddit", [])] from rfl,
    foldl_dictSet_eval
      (fun s => fetchFromSource search s (queries.filter (fun q => q.source == s)))
      _ [] [] [] hallknown]
  have hpatch : ∀ s, s ∈ knownSources →
      (if s ∈ (groupBySource queries).map (fun g => g.1) then
        fetchFromSource search s (queries.filter (fun q => q.source == s))
      else ([] : List LearningResource)) =
        fetchFromSource search s (queries.filter (fun q => q.source == s)) := by
    intro s hs
    by_cases h : s ∈ (groupBySource queries).map (fun g => g.1)
    · rw [if_pos h]
    · rw [if_neg h, filter_source_eq_nil (fun hc => h ((hmem s).mpr hc))]
      simp [fetchFromSource, collectResults, dedupByUrl, hs]
  simp only [knownSources, List.map_cons, List.map_nil]
  rw [hpatch "youtube" (by simp [knownSources]), hpatch "udemy" (by simp [knownSources]),
    hpatch "reddit" (by simp [knownSources])]

/-- Claim C10: failure isolation inside one source is per query — a query
whose `client.search` raises is simply skipped (`continue`), so removing
it from the query list leaves `_fetch_from_source`'s output unchanged;
the other queries' resources are returned and no exception propagates
(the embedding is total). -/
theorem claim_C10 (search : SearchFun) (source : String) (qs1 qs2 : List SearchQuery)
    (qf : SearchQuery) (hfail : search source qf = .error ()) :
    fetchFromSource search source (qs1 ++ qf :: qs2) =
      fetchFromSource search source (qs1 ++ qs2) := by
  unfold fetchFromSource
  rw [show qf :: qs2 = [qf] ++ qs2 from rfl, collectResults_append, collectResults_append,
    collectResults_append]
  simp [collectResults, hfail]

/-- Concrete client behaviour for the claim C10 witness: the "bad" query
raises, the "ok" query returns two resources. -/
def searchPerQuery : SearchFun := fun _ q =>
  if q.query = "bad" then .error ()
  else .ok [sampleResource, { sampleResource with url := "https://x/2" }]

/-- Claim C10 witness: with one failing query between two successful
ones, the failing query contributes nothing and the successful queries'
resources are still returned. -/
theorem claim_C10_witness :
    (fetchFromSource searchPerQuery "youtube"
        [{ query := "ok1", source := "youtube", difficulty := "d", content_type := "all" },
         { query := "bad", source := "youtube", difficulty := "d", content_type := "all" },
         { query := "ok2", source := "youtube", difficulty := "d", content_type := "all" }] =
      fetchFromSource searchPerQuery "youtube"
        [{ query := "ok1", source := "youtube", difficulty := "d", content_type := "all" },
         { query := "ok2", source := "youtube", difficulty := "d", content_type := "all" }]) ∧
    fetchFromSource searchPerQuery "youtube"
        [{ query := "ok1", source := "youtube", difficulty := "d", content_type := "all" },
         { query := "ok2", source := "youtube", difficulty := "d", content_type := "all" }] ≠
      [] :=
  ⟨claim_C10 searchPerQuery "youtube"
      [{ query := "ok1", source := "youtube", difficulty := "d", content_type := "all" }]
      [{ query := "ok2", source := "youtube", difficulty := "d", content_type := "all" }]
      { query := "bad", source := "youtube", difficulty := "d", content_type := "all" }
      (by rfl),
   by decide⟩

/-- A query addressed to the given source, for concrete scenarios. -/
def queryFor (s : String) : SearchQuery :=
  { query := "x", source := s, difficulty := "d", content_type := "all" }

/-- A minimal resource with the given url and source. -/
def mkRes (u src : String) : LearningResource :=
  { title := "t", description := "", url := u, source := src }

/-- Client behaviour where youtube and udemy return distinct resources
sharing one url. -/
def searchDup : SearchFun := fun s _ =>
  if s = "youtube" then .ok [mkRes "https://x/1" "youtube"]
  else if s = "udemy" then .ok [mkRes "https://x/1" "udemy"]
  else .ok []

/-- Claim C3 (counterexample): the url `https://x/1` is returned by both
the youtube and the udemy clients, yet the merged output of the fetch
stage contains two resources with that url — deduplication happens only
inside `_fetch_from_source`, never across sources (`main.py` simply
concatenates the per-source lists). -/
theorem claim_C3_counterexample :
    ((mergedResources searchDup [queryFor "youtube", queryFor "udemy"]).filter
        (fun r => r.url == "https://x/1")).length = 2 ∧
    ¬ (((mergedResources searchDup [queryFor "youtube", queryFor "udemy"]).filter
        (fun r => r.url == "https://x/1")).length = 1) := by
  constructor <;> decide

/-- Claim C3 (amended): dedup is per source only.  For every url, the
merged fetch output contains, for each source in the fixed iteration
order (youtube, udemy, reddit), at most one resource with that url —
namely the first-seen occurrence in that source's per-query result
order; occurrences of the same url in different sources are all
retained. -/
theorem claim_C3_amended (search : SearchFun) (queries : List SearchQuery) (u : String)
    (HK : ∀ q ∈ queries, q.source ∈ knownSources) :
    (mergedResources search queries).filter (fun r => r.url == u) =
      (knownSources.map (fun s =>
        ((collectResults search s (queries.filter (fun q => q.source == s))).filter
          (fun r => r.url == u)).take 1)).flatten := by
  have hsrc : ∀ s, s ∈ knownSources →
      (fetchFromSource search s (queries.filter (fun q => q.source == s))).filter
          (fun r => r.url == u) =
        ((collectResults search s (queries.filter (fun q => q.source == s))).filter
          (fun r => r.url == u)).take 1 := by
    intro s hs
    rw [fetchFromSource, if_pos hs, dedupByUrl_filter]
    simp
  rw [mergedResources, fetchAllResources_eq_of_known search queries HK]
  simp only [knownSources, List.map_cons, List.map_nil, List.flatten_cons, List.flatten_nil,
    List.append_nil, List.filter_append]
  rw [hsrc "youtube" (by simp [knownSources]), hsrc "udemy" (by simp [knownSources]),
    hsrc "reddit" (by simp [knownSources])]

/-- Claim C3 (amended) witness: concrete duplicated url across youtube
and udemy. -/
theorem claim_C3_amended_witness :
    (mergedResources searchDup [queryFor "youtube", queryFor "udemy"]).filter
        (fun r => r.url == "https://x/1") =
      (knownSources.map (fun s =>
        ((collectResults searchDup s
            ([queryFor "youtube", queryFor "udemy"].filter (fun q => q.source == s))).filter
          (fun r => r.url == "https://x/1")).take 1)).flatten :=
  claim_C3_amended searchDup [queryFor "youtube", queryFor "udemy"] "https://x/1" (by decide)

/-- Claim C5: if one source's client raises on every query while the
other sources' fetches proceed, `fetch_all_resources` propagates no
exception (the embedding is total) and the merged result consists of
exactly the other sources' fetched resources — the failing source
contributes zero resources. -/
theorem claim_C5 (search : SearchFun) (queries : List SearchQuery) (s0 : String)
    (HK : ∀ q ∈ queries, q.source ∈ knownSources)
    (hfail : ∀ q, search s0 q = .error ()) :
    mergedResources search queries =
      ((knownSources.filter (fun s => !(s == s0))).map (fun s =>
        fetchFromSource search s (queries.filter (fun q => q.source == s)))).flatten := by
  have hzero : ∀ s, s = s0 →
      fetchFromSource search s (queries.filter (fun q => q.source == s)) = [] := by
    intro s hs
    rw [fetchFromSource]
    by_cases hk : s ∈ knownSources
    · rw [if_pos hk, hs, collectResults_all_fail search s0 _ hfail]
      rfl
    · rw [if_neg hk]
  rw [mergedResources, fetchAllResources_eq_of_known search queries HK]
  by_cases hy : s0 = "youtube"
  · subst hy
    simp +decide [knownSources, hzero "youtube" rfl]
  · by_cases hu : s0 = "udemy"
    · subst hu
      simp +decide [knownSources, hzero "udemy" rfl]
    · by_cases hr : s0 = "reddit"
      · subst hr
        simp +decide [knownSources, hzero "reddit" rfl]
      · have h1 : ("youtube" == s0) = false := by
          simp only [beq_eq_false_iff_ne, ne_eq]
          exact fun h => hy h.symm
        have h2 : ("udemy" == s0) = false := by
          simp only [beq_eq_false_iff_ne, ne_eq]
          exact fun h => hu h.symm
        have h3 : ("reddit" == s0) = false := by
          simp only [beq_eq_false_iff_ne, ne_eq]
          exact fun h => hr h.symm
        simp [knownSources, h1, h2, h3]

/-- Scenario B client behaviour: youtube raises on every query, udemy
and reddit return four resources each. -/
def searchScenarioB : SearchFun := fun s _ =>
  if s = "youtube" then .error ()
  else if s = "udemy" then
    .ok [mkRes "https://u/1" "udemy", mkRes "https://u/2" "udemy",
         mkRes "https://u/3" "udemy", mkRes "https://u/4" "udemy"]
  else
    .ok [mkRes "https://r/1" "reddit", mkRes "https://r/2" "reddit",
         mkRes "https://r/3" "reddit", mkRes "https://r/4" "reddit"]

/-- Claim C5 witness (the spec's Scenario B): youtube raises, udemy and
reddit return 4 resources each; the merge returns exactly those 8. -/
theorem claim_C5_witness :
    (mergedResources searchScenarioB [queryFor "youtube", queryFor "udemy", queryFor "reddit"] =
      ((knownSources.filter (fun s => !(s == "youtube"))).map (fun s =>
        fetchFromSource searchScenarioB s
          ([queryFor "youtube", queryFor "udemy", queryFor "reddit"].filter
            (fun q => q.source == s)))).flatten) ∧
    (mergedResources searchScenarioB
        [queryFor "youtube", queryFor "udemy", queryFor "reddit"]).length = 8 :=
  ⟨claim_C5 searchScenarioB [queryFor "youtube", queryFor "udemy", queryFor "reddit"]
      "youtube" (by decide) (fun q => rfl),
   by decide⟩

/-! ## Ranking lemmas -/

theorem difficulty_preferences_nonneg (level : ExperienceLevel) (d : String) :
    0 ≤ difficulty_preferences level d := by
  cases level <;> simp only [difficulty_preferences] <;> split_ifs <;> norm_num

theorem calcDifficultyBonus_nonneg (r : LearningResource) (profile : UserLearningProfile) :
    0 ≤ calcDifficultyBonus r profile := by
  rw [calcDifficultyBonus]
  split_ifs
  · exact le_refl 0
  · have := difficulty_preferences_nonneg profile.experience_level (lowerStr (r.difficulty.getD ""))
    positivity

/-- The rating factor `(if rating truthy then min(rating/5, 1) * 0.3 else 0)`
is monotone in the rating value (with Python truthiness, rating `0`
contributes nothing). -/
theorem pyMin_eq_min (a b : ℚ) : pyMin a b = min a b := by
  rw [pyMin, min_def]

theorem ratingTerm_mono (q q' : ℚ) (hq : q ≤ q') :
    (if (q != 0) = true then pyMin (q / 5) 1 * (3 / 10) else 0) ≤
      (if (q' != 0) = true then pyMin (q' / 5) 1 * (3 / 10) else 0) := by
  simp only [pyMin_eq_min]
  simp only [bne_iff_ne, ne_eq, ite_not]
  by_cases h : q = 0 <;> by_cases h' : q' = 0
  · simp [h, h']
  · have hpos : 0 < q' := lt_of_le_of_ne (h ▸ hq) (Ne.symm h')
    have : (0 : ℚ) ≤ min (q' / 5) 1 := le_min (by positivity) (by norm_num)
    simp [h, h']
    positivity
  · have hneg : q < 0 := lt_of_le_of_ne (h' ▸ hq) h
    have hmin : min (q / 5) 1 = q / 5 := min_eq_left (by linarith)
    simp [h, h', hmin]
    nlinarith
  · simp only [h, h', if_neg, ite_false]
    have h5 : q / 5 ≤ q' / 5 := by linarith
    have hmin : min (q / 5) 1 ≤ min (q' / 5) 1 := min_le_min h5 (le_refl 1)
    have := mul_le_mul_of_nonneg_right hmin (by norm_num : (0 : ℚ) ≤ 3 / 10)
    simpa [h, h'] using this

/-- Claim C7, part (a): increasing a resource's rating with all other
fields and the profile fixed never decreases its composite score. -/
theorem calcResourceScore_rating_mono (log10 : Int → ℚ) (randVal : ℚ)
    (r : LearningResource) (profile : UserLearningProfile) (q q' : ℚ) (hq : q ≤ q') :
    calcResourceScore log10 randVal { r with rating := some q } profile ≤
      calcResourceScore log10 randVal { r with rating := some q' } profile := by
  simp only [calcResourceScore, optTruthyQ, optTruthyZ, Option.getD_some]
  have hbonus : 0 ≤ calcDifficultyBonus { r with rating := some q } profile :=
    calcDifficultyBonus_nonneg _ _
  have hbeq : calcDifficultyBonus { r with rating := some q } profile =
      calcDifficultyBonus { r with rating := some q' } profile := rfl
  have hrel : calcRelevanceScore { r with rating := some q } profile =
      calcRelevanceScore { r with rating := some q' } profile := rfl
  rw [← hbeq, ← hrel]
  apply mul_le_mul_of_nonneg_right
  · have := ratingTerm_mono q q' hq
    exact add_le_add (add_le_add (add_le_add this (le_refl _)) (le_refl _)) (le_refl _)
  · linarith

/-- Sorted (descending by score) invariant for the scored-pair sort. -/
def scoredSorted (l : List (LearningResource × ℚ)) : Prop :=
  l.Pairwise (fun a b => b.2 ≤ a.2)

theorem mem_insertScoredDesc {z x : LearningResource × ℚ}
    {l : List (LearningResource × ℚ)} :
    z ∈ insertScoredDesc x l ↔ z = x ∨ z ∈ l := by
  induction l with
  | nil => simp [insertScoredDesc]
  | cons y ys ih =>
      by_cases h : y.2 ≤ x.2
      · simp [insertScoredDesc, h]
      · simp [insertScoredDesc, h, ih]
        tauto

theorem insertScoredDesc_eq_cons {x : LearningResource × ℚ}
    {l : List (LearningResource × ℚ)} (h : ∀ z ∈ l, z.2 ≤ x.2) :
    insertScoredDesc x l = x :: l := by
  cases l with
  | nil => rfl
  | cons y ys => exact if_pos (h y (List.mem_cons_self y ys))

theorem scoredSorted_insert {x : LearningResource × ℚ}
    {l : List (LearningResource × ℚ)} (hs : scoredSorted l) :
    scoredSorted (insertScoredDesc x l) := by
  induction l with
  | nil => simp [insertScoredDesc, scoredSorted]
  | cons y ys ih =>
      rw [scoredSorted, List.pairwise_cons] at hs
      obtain ⟨h1, h2⟩ := hs
      by_cases h : y.2 ≤ x.2
      · rw [insertScoredDesc, if_pos h, scoredSorted, List.pairwise_cons]
        constructor
        · intro z hz
          rcases List.mem_cons.mp hz with rfl | hz'
          · exact h
          · exact (h1 z hz').trans h
        · rw [List.pairwise_cons]
          exact ⟨h1, h2⟩
      · rw [insertScoredDesc, if_neg h, scoredSorted, List.pairwise_cons]
        constructor
        · intro z hz
          rcases mem_insertScoredDesc.mp hz with rfl | hz'
          · exact le_of_lt (lt_of_not_le h)
          · exact h1 z hz'
        · exact ih h2

theorem scoredSorted_sort (l : List (LearningResource × ℚ)) :
    scoredSorted (sortScoredDesc l) := by
  induction l with
  | nil => simp [sortScoredDesc, scoredSorted]
  | cons x xs ih => exact scoredSorted_insert ih

theorem filter_insertScoredDesc (p : LearningResource × ℚ → Bool)
    (x : LearningResource × ℚ) (l : List (LearningResource × ℚ)) (hs : scoredSorted l) :
    (insertScoredDesc x l).filter p =
      if p x then insertScoredDesc x (l.filter p) else l.filter p := by
  induction l with
  | nil =>
      by_cases hpx : p x <;> simp [insertScoredDesc, List.filter_cons, hpx]
  | cons y ys ih =>
      rw [scoredSorted, List.pairwise_cons] at hs
      obtain ⟨h1, h2⟩ := hs
      by_cases hxy : y.2 ≤ x.2
      · rw [insertScoredDesc, if_pos hxy, List.filter_cons]
        by_cases hpx : p x
        · rw [if_pos hpx, if_pos hpx]
          rw [insertScoredDesc_eq_cons]
          intro z hz
          rcases List.mem_cons.mp (List.mem_of_mem_filter hz) with rfl | hz'
          · exact hxy
          · exact (h1 z hz').trans hxy
        · rw [if_neg hpx, if_neg hpx]
      · rw [insertScoredDesc, if_neg hxy, List.filter_cons, List.filter_cons]
        by_cases hpy : p y
        · rw [if_pos hpy, if_pos hpy]
          by_cases hpx : p x
          · rw [ih h2, if_pos hpx, if_pos hpx, insertScoredDesc, if_neg hxy]
          · rw [ih h2, if_neg hpx, if_neg hpx]
        · rw [if_neg hpy, if_neg hpy, ih h2]

theorem filter_sortScoredDesc (p : LearningResource × ℚ → Bool)
    (l : List (LearningResource × ℚ)) :
    (sortScoredDesc l).filter p = sortScoredDesc (l.filter p) := by
  induction l with
  | nil => rfl
  | cons x xs ih =>
      rw [sortScoredDesc, filter_insertScoredDesc p x _ (scoredSorted_sort xs), List.filter_cons]
      by_cases hpx : p x
      · rw [if_pos hpx, if_pos hpx, ih, sortScoredDesc]
      · rw [if_neg hpx, if_neg hpx, ih]

theorem filter_map_fst (p : LearningResource → Bool) (l : List (LearningResource × ℚ)) :
    (l.map (fun z => z.1)).filter p = (l.filter (fun z => p z.1)).map (fun z => z.1) := by
  induction l with
  | nil => rfl
  | cons x xs ih =>
      rw [List.map_cons, List.filter_cons, List.filter_cons]
      by_cases hpx : p x.1
      · rw [if_pos hpx, if_pos hpx, List.map_cons, ih]
      · rw [if_neg hpx, if_neg hpx, ih]

/-- Number of random recency draws consumed when scoring a list. -/
def datedCount (l : List LearningResource) : Nat :=
  l.countP pubTruthy

theorem scoreResources_append (log10 : Int → ℚ) (rand : Nat → ℚ)
    (profile : UserLearningProfile) (l1 l2 : List LearningResource) (k : Nat) :
    scoreResources log10 rand profile (l1 ++ l2) k =
      scoreResources log10 rand profile l1 k ++
        scoreResources log10 rand profile l2 (k + datedCount l1) := by
  induction l1 generalizing k with
  | nil => simp [scoreResources, datedCount]
  | cons r rs ih =>
      rw [List.cons_append, scoreResources, scoreResources, ih, List.cons_append]
      have harith : k + (if pubTruthy r then 1 else 0) + datedCount rs =
          k + datedCount (r :: rs) := by
        rw [datedCount, datedCount, List.countP_cons]
        omega
      rw [harith]

theorem filter_scoreResources_nil (log10 : Int → ℚ) (rand : Nat → ℚ)
    (profile : UserLearningProfile) (Q : LearningResource → Bool)
    (m : List LearningResource) (k : Nat) (h : ∀ r ∈ m, Q r = false) :
    (scoreResources log10 rand profile m k).filter (fun z => Q z.1) = [] := by
  induction m generalizing k with
  | nil => rfl
  | cons r rs ih =>
      rw [scoreResources, List.filter_cons]
      have : ¬ (Q r = true) := by
        rw [h r (List.mem_cons_self r rs)]
        exact Bool.false_ne_true
      rw [if_neg this]
      exact ih _ (fun r' hr' => h r' (List.mem_cons_of_mem _ hr'))

theorem rankResources_eq (log10 : Int → ℚ) (rand : Nat → ℚ)
    (resources : List LearningResource) (profile : UserLearningProfile) :
    rankResources log10 rand resources profile =
      (sortScoredDesc (scoreResources log10 rand profile resources 0)).map (fun z => z.1) := by
  cases resources <;> simp [rankResources, scoreResources, sortScoredDesc]

/-- Resource `x` appears strictly before resource `y` (identified by
their urls `u`, `v`) in the list `l`: restricting `l` to the two urls
yields `[u, v]`. -/
def beforeByUrl (l : List LearningResource) (u v : String) : Prop :=
  (l.filter (fun r => r.url == u || r.url == v)).map (fun r => r.url) = [u, v]

/-- Restricting the ranked list to two distinguished urls: the stable
descending sort keeps `x` (earlier in input order) before `y` exactly
when `y`'s score does not exceed `x`'s. -/
theorem rank_filter_pair (log10 : Int → ℚ) (rand : Nat → ℚ) (profile : UserLearningProfile)
    (l1 l2 l3 : List LearningResource) (x y : LearningResource) (u v : String)
    (hxu : x.url = u) (hyv : y.url = v)
    (hx : ∀ r ∈ l1 ++ l2 ++ l3, r.url ≠ u)
    (hy : ∀ r ∈ l1 ++ l2 ++ l3, r.url ≠ v) :
    (rankResources log10 rand (l1 ++ x :: (l2 ++ y :: l3)) profile).filter
        (fun r => r.url == u || r.url == v) =
      if calcResourceScore log10
            (rand (datedCount l1 + (if pubTruthy x then 1 else 0) + datedCount l2)) y profile ≤
          calcResourceScore log10 (rand (datedCount l1)) x profile
      then [x, y] else [y, x] := by
  have hnotQ : ∀ (m : List LearningResource),
      (∀ r ∈ m, r ∈ l1 ++ l2 ++ l3) → ∀ r ∈ m, (r.url == u || r.url == v) = false := by
    intro m hm r hr
    have h1 := hx r (hm r hr)
    have h2 := hy r (hm r hr)
    simp [h1, h2]
  rw [rankResources_eq, filter_map_fst, filter_sortScoredDesc, scoreResources_append]
  rw [scoreResources, scoreResources_append, scoreResources]
  rw [List.filter_append, List.filter_cons, List.filter_append, List.filter_cons]
  rw [filter_scoreResources_nil log10 rand profile _ l1 _
      (hnotQ l1 (fun r hr => by simp [List.mem_append, hr]) )]
  rw [filter_scoreResources_nil log10 rand profile _ l2 _
      (hnotQ l2 (fun r hr => by simp [List.mem_append, hr]) )]
  rw [filter_scoreResources_nil log10 rand profile _ l3 _
      (hnotQ l3 (fun r hr => by simp [List.mem_append, hr]) )]
  rw [if_pos (by simp [hxu] : ((x, calcResourceScore log10 (rand (0 + datedCount l1)) x
        profile).1.url == u || (x, calcResourceScore log10 (rand (0 + datedCount l1)) x
        profile).1.url == v) = true)]
  rw [if_pos (by simp [hyv] : ((y, calcResourceScore log10 (rand (0 + datedCount l1 +
        (if pubTruthy x then 1 else 0) + datedCount l2)) y profile).1.url == u ||
        (y, calcResourceScore log10 (rand (0 + datedCount l1 +
        (if pubTruthy x then 1 else 0) + datedCount l2)) y profile).1.url == v) = true)]
  simp only [List.nil_append, List.append_nil, Nat.zero_add]
  simp only [sortScoredDesc, insertScoredDesc]
  by_cases hc : calcResourceScore log10
      (rand (datedCount l1 + (if pubTruthy x then 1 else 0) + datedCount l2)) y profile ≤
      calcResourceScore log10 (rand (datedCount l1)) x profile
  · rw [if_pos hc, if_pos hc]
    rfl
  · rw [if_neg hc, if_neg hc]
    rfl

/-- Claim C7: increasing a resource's rating, every other field of the
resource and the profile fixed, (a) never decreases its composite score,
and (b) never moves it below any other resource in `rank_resources`'
output — stated for both relative input positions of the two resources
(urls are assumed pairwise distinct, as they are after dedup). -/
theorem claim_C7 (log10 : Int → ℚ) (rand : Nat → ℚ) (rv : ℚ)
    (profile : UserLearningProfile) (l1 l2 l3 : List LearningResource)
    (a b : LearningResource) (q q' : ℚ)
    (hq : q ≤ q') (hab : a.url ≠ b.url)
    (ha : ∀ r ∈ l1 ++ l2 ++ l3, r.url ≠ a.url)
    (hb : ∀ r ∈ l1 ++ l2 ++ l3, r.url ≠ b.url) :
    (calcResourceScore log10 rv { a with rating := some q } profile ≤
      calcResourceScore log10 rv { a with rating := some q' } profile) ∧
    (beforeByUrl (rankResources log10 rand
        (l1 ++ { a with rating := some q } :: (l2 ++ b :: l3)) profile) a.url b.url →
      beforeByUrl (rankResources log10 rand
        (l1 ++ { a with rating := some q' } :: (l2 ++ b :: l3)) profile) a.url b.url) ∧
    (beforeByUrl (rankResources log10 rand
        (l1 ++ b :: (l2 ++ { a with rating := some q } :: l3)) profile) a.url b.url →
      beforeByUrl (rankResources log10 rand
        (l1 ++ b :: (l2 ++ { a with rating := some q' } :: l3)) profile) a.url b.url) := by
  refine ⟨calcResourceScore_rating_mono log10 rv a profile q q' hq, ?_, ?_⟩
  · intro hbef
    unfold beforeByUrl at hbef ⊢
    rw [rank_filter_pair log10 rand profile l1 l2 l3 { a with rating := some q } b
        a.url b.url rfl rfl ha hb] at hbef
    rw [rank_filter_pair log10 rand profile l1 l2 l3 { a with rating := some q' } b
        a.url b.url rfl rfl ha hb]
    have hpt : (if pubTruthy { a with rating := some q' } then 1 else 0) =
        (if pubTruthy { a with rating := some q } then 1 else 0) := rfl
    rw [hpt]
    by_cases hc : calcResourceScore log10
        (rand (datedCount l1 + (if pubTruthy { a with rating := some q } then 1 else 0) +
          datedCount l2)) b profile ≤
        calcResourceScore log10 (rand (datedCount l1)) { a with rating := some q } profile
    · rw [if_pos (hc.trans (calcResourceScore_rating_mono log10 _ a profile q q' hq))]
      rfl
    · rw [if_neg hc] at hbef
      simp only [List.map_cons, List.map_nil] at hbef
      injection hbef with h1 h2
      exact absurd h1 (Ne.symm hab)
  · intro hbef
    unfold beforeByUrl at hbef ⊢
    have hswap : ∀ (l : List LearningResource),
        l.filter (fun r => r.url == a.url || r.url == b.url) =
          l.filter (fun r => r.url == b.url || r.url == a.url) :=
      fun l => List.filter_congr (fun r _ => by rw [Bool.or_comm])
    rw [hswap] at hbef ⊢
    rw [rank_filter_pair log10 rand profile l1 l2 l3 b { a with rating := some q }
        b.url a.url rfl rfl hb ha] at hbef
    rw [rank_filter_pair log10 rand profile l1 l2 l3 b { a with rating := some q' }
        b.url a.url rfl rfl hb ha]
    by_cases hc : calcResourceScore log10
        (rand (datedCount l1 + (if pubTruthy b then 1 else 0) + datedCount l2))
          { a with rating := some q } profile ≤
        calcResourceScore log10 (rand (datedCount l1)) b profile
    · rw [if_pos hc] at hbef
      simp only [List.map_cons, List.map_nil] at hbef
      injection hbef with h1 h2
      exact absurd h1 (Ne.symm hab)
    · have hc' : ¬ (calcResourceScore log10
          (rand (datedCount l1 + (if pubTruthy b then 1 else 0) + datedCount l2))
            { a with rating := some q' } profile ≤
          calcResourceScore log10 (rand (datedCount l1)) b profile) := by
        intro hle
        exact hc (le_trans (calcResourceScore_rating_mono log10 _ a profile q q' hq) hle)
      rw [if_neg hc']
      rfl

/-- Claim C7 witness at a concrete two-resource list. -/
theorem claim_C7_witness :
    (calcResourceScore (fun _ => 0) 0
        { mkRes "https://a" "youtube" with rating := some 1 } sampleProfile ≤
      calcResourceScore (fun _ => 0) 0
        { mkRes "https://a" "youtube" with rating := some 2 } sampleProfile) ∧
    (beforeByUrl (rankResources (fun _ => 0) (fun _ => 0)
        ([] ++ { mkRes "https://a" "youtube" with rating := some 1 } ::
          ([] ++ mkRes "https://b" "youtube" :: [])) sampleProfile)
        (mkRes "https://a" "youtube").url (mkRes "https://b" "youtube").url →
      beforeByUrl (rankResources (fun _ => 0) (fun _ => 0)
        ([] ++ { mkRes "https://a" "youtube" with rating := some 2 } ::
          ([] ++ mkRes "https://b" "youtube" :: [])) sampleProfile)
        (mkRes "https://a" "youtube").url (mkRes "https://b" "youtube").url) ∧
    (beforeByUrl (rankResources (fun _ => 0) (fun _ => 0)
        ([] ++ mkRes "https://b" "youtube" ::
          ([] ++ { mkRes "https://a" "youtube" with rating := some 1 } :: [])) sampleProfile)
        (mkRes "https://a" "youtube").url (mkRes "https://b" "youtube").url →
      beforeByUrl (rankResources (fun _ => 0) (fun _ => 0)
        ([] ++ mkRes "https://b" "youtube" ::
          ([] ++ { mkRes "https://a" "youtube" with rating := some 2 } :: [])) sampleProfile)
        (mkRes "https://a" "youtube").url (mkRes "https://b" "youtube").url) :=
  claim_C7 (fun _ => 0) (fun _ => 0) 0 sampleProfile [] [] []
    (mkRes "https://a" "youtube") (mkRes "https://b" "youtube") 1 2
    (by norm_num) (by decide) (by simp) (by simp)

/-- Claim C9: a rating of `0` (and likewise a view count of `0`) is falsy
in Python, so `_calculate_resource_score` gives it exactly the score of
the same resource with the field absent; yet
`filter_by_quality_threshold` treats rating `0` as a real (present) low
rating and drops the resource whenever the threshold is positive. -/
theorem claim_C9 (log10 : Int → ℚ) (randVal : ℚ) (r : LearningResource)
    (profile : UserLearningProfile) (minRating : ℚ) (hpos : 0 < minRating) :
    calcResourceScore log10 randVal { r with rating := some 0 } profile =
      calcResourceScore log10 randVal { r with rating := none } profile ∧
    calcResourceScore log10 randVal { r with view_count := some 0 } profile =
      calcResourceScore log10 randVal { r with view_count := none } profile ∧
    filterByQualityThreshold [{ r with rating := some 0 }] minRating = [] := by
  refine ⟨rfl, rfl, ?_⟩
  have hnotle : ¬ (minRating ≤ 0) := not_le.mpr hpos
  simp [filterByQualityThreshold, List.filter_cons, hnotle]

/-- Claim C9 witness at a concrete resource, threshold 3. -/
theorem claim_C9_witness :
    calcResourceScore (fun _ => 0) 0 { sampleResource with rating := some 0 } sampleProfile =
      calcResourceScore (fun _ => 0) 0 { sampleResource with rating := none } sampleProfile ∧
    calcResourceScore (fun _ => 0) 0
        { sampleResource with view_count := some 0 } sampleProfile =
      calcResourceScore (fun _ => 0) 0
        { sampleResource with view_count := none } sampleProfile ∧
    filterByQualityThreshold [{ sampleResource with rating := some 0 }] 3 = [] :=
  claim_C9 (fun _ => 0) 0 sampleResource sampleProfile 3 (by norm_num)

/-! ## Pipeline determinism (claim C1) -/

theorem mem_dedupByUrl {r : LearningResource} {seen : List String}
    {l : List LearningResource} (h : r ∈ dedupByUrl seen l) : r ∈ l := by
  induction l generalizing seen with
  | nil => simp [dedupByUrl] at h
  | cons x xs ih =>
      rw [dedupByUrl] at h
      split at h
      · exact List.mem_cons_of_mem _ (ih h)
      · rcases List.mem_cons.mp h with rfl | h'
        · exact List.mem_cons_self _ _
        · exact List.mem_cons_of_mem _ (ih h')

theorem mem_collectResults {r : LearningResource} {search : SearchFun} {s : String}
    {qs : List SearchQuery} (h : r ∈ collectResults search s qs) :
    ∃ q res, search s q = .ok res ∧ r ∈ res := by
  induction qs with
  | nil => simp [collectResults] at h
  | cons q rest ih =>
      rw [collectResults] at h
      rcases List.mem_append.mp h with h1 | h2
      · rcases hsq : search s q with e | res
        · rw [hsq] at h1
          simp at h1
        · rw [hsq] at h1
          exact ⟨q, res, hsq, h1⟩
      · exact ih h2

theorem mem_fetchFromSource {r : LearningResource} {search : SearchFun} {s : String}
    {qs : List SearchQuery} (h : r ∈ fetchFromSource search s qs) :
    ∃ q res, search s q = .ok res ∧ r ∈ res := by
  rw [fetchFromSource] at h
  split at h
  · exact mem_collectResults (mem_dedupByUrl h)
  · simp at h

theorem mem_dictSet {e : String × List LearningResource}
    {res : List (String × List LearningResource)} {key : String}
    {v : List LearningResource} (h : e ∈ dictSet res key v) : e ∈ res ∨ e.2 = v := by
  rw [dictSet] at h
  split at h
  · obtain ⟨e0, he0, rfl⟩ := List.mem_map.mp h
    by_cases hk : e0.1 = key
    · simp [hk]
    · simp [hk]
      exact Or.inl he0
  · rcases List.mem_append.mp h with h1 | h2
    · exact Or.inl h1
    · simp at h2
      subst h2
      exact Or.inr rfl

theorem combineResults_values (groups : List (String × List SearchQuery))
    (srcResults : List (List LearningResource)) :
    ∀ e ∈ combineResults groups srcResults, e.2 = [] ∨ e.2 ∈ srcResults := by
  rw [combineResults]
  have hstep : ∀ (l : List (Nat × (String × List SearchQuery)))
      (res : List (String × List LearningResource)),
      (∀ e ∈ res, e.2 = [] ∨ e.2 ∈ srcResults) →
      ∀ e ∈ l.foldl (fun res ig =>
          if ig.1 < srcResults.length then dictSet res ig.2.1 (srcResults.getD ig.1 [])
          else res) res,
        e.2 = [] ∨ e.2 ∈ srcResults := by
    intro l
    induction l with
    | nil => intro res hres e he; exact hres e he
    | cons ig rest ih =>
        intro res hres e he
        rw [List.foldl_cons] at he
        apply ih _ _ e he
        intro e' he'
        by_cases hlt : ig.1 < srcResults.length
        · rw [if_pos hlt] at he'
          rcases mem_dictSet he' with hin | hv
          · exact hres e' hin
          · right
            rw [hv]
            have : srcResults.getD ig.1 [] = srcResults[ig.1] := List.getD_eq_getElem _ _ hlt
            rw [this]
            exact List.getElem_mem hlt
        · rw [if_neg hlt] at he'
          exact hres e' he'
  intro e he
  refine hstep _ initialResults ?_ e he
  intro e' he'
  left
  simp [initialResults] at he'
  rcases he' with rfl | rfl | rfl <;> rfl

theorem mem_mergedResources {r : LearningResource} {search : SearchFun}
    {queries : List SearchQuery} (h : r ∈ mergedResources search queries) :
    ∃ s q res, search s q = .ok res ∧ r ∈ res := by
  rw [mergedResources] at h
  obtain ⟨v, hv, hrv⟩ := List.mem_flatten.mp h
  obtain ⟨e, he, rfl⟩ := List.mem_map.mp hv
  rcases combineResults_values _ _ e he with h0 | hsrc
  · rw [h0] at hrv
    simp at hrv
  · obtain ⟨g, hg, heq⟩ := List.mem_map.mp hsrc
    rw [← heq] at hrv
    obtain ⟨q, res, hq, hr⟩ := mem_fetchFromSource hrv
    exact ⟨g.1, q, res, hq, hr⟩

theorem calcResourceScore_rand_irrel (log10 : Int → ℚ) (rv1 rv2 : ℚ)
    (r : LearningResource) (profile : UserLearningProfile)
    (h : pubTruthy r = false) :
    calcResourceScore log10 rv1 r profile = calcResourceScore log10 rv2 r profile := by
  rw [pubTruthy] at h
  simp [calcResourceScore, calcRecencyScore, h]

theorem scoreResources_rand_irrel (log10 : Int → ℚ) (rand1 rand2 : Nat → ℚ)
    (profile : UserLearningProfile) (m : List LearningResource) (k1 k2 : Nat)
    (h : ∀ r ∈ m, pubTruthy r = false) :
    scoreResources log10 rand1 profile m k1 = scoreResources log10 rand2 profile m k2 := by
  induction m generalizing k1 k2 with
  | nil => rfl
  | cons r rs ih =>
      rw [scoreResources, scoreResources]
      rw [calcResourceScore_rand_irrel log10 (rand1 k1) (rand2 k2) r profile
          (h r (List.mem_cons_self r rs))]
      rw [ih _ _ (fun r' hr' => h r' (List.mem_cons_of_mem _ hr'))]

theorem rankResources_rand_irrel (log10 : Int → ℚ) (rand1 rand2 : Nat → ℚ)
    (m : List LearningResource) (profile : UserLearningProfile)
    (h : ∀ r ∈ m, pubTruthy r = false) :
    rankResources log10 rand1 m profile = rankResources log10 rand2 m profile := by
  rw [rankResources_eq, rankResources_eq,
    scoreResources_rand_irrel log10 rand1 rand2 profile m 0 0 h]

/-- Client behaviour for the claim C1 counterexample: youtube returns two
resources that both carry a published date (so scoring draws a random
recency value for each). -/
def searchDated : SearchFun := fun s _ =>
  if s = "youtube" then
    .ok [{ mkRes "https://d/1" "youtube" with published_date := some "2024-01-01" },
         { mkRes "https://d/2" "youtube" with published_date := some "2024-01-02" }]
  else .ok []

/-- First run's recency draws. -/
def randRunA : Nat → ℚ := fun k => if k = 0 then 9 / 10 else 3 / 10

/-- Second run's recency draws. -/
def randRunB : Nat → ℚ := fun k => if k = 0 then 3 / 10 else 9 / 10

set_option maxRecDepth 10000 in
/-- Claim C1 (counterexample): with the profile, the mocked per-source
responses, and even the per-run uuid/timestamp all fixed, two pipeline
runs that differ only in the values drawn by `random.uniform` inside
`_calculate_recency_score` (which happens whenever a fetched resource has
a published date) produce different LearningPath outputs — the two dated
resources swap ranks, which swaps the step-1 resource. -/
theorem claim_C1_counterexample :
    (runPipeline searchDated sampleProfile "pid" "t0" (fun _ => 0) randRunA).toOption ≠
      (runPipeline searchDated sampleProfile "pid" "t0" (fun _ => 0) randRunB).toOption := by
  with_unfolding_all decide

/-- Claim C1 (amended): the pipeline output is a deterministic function
of the profile, the mocked source responses, and the per-run fresh values
(`uuid.uuid4()` path id, `utcnow()` creation timestamp, and the random
recency draws).  In particular, when no fetched resource has a truthy
published date, no recency draw is consumed and two runs with the same
path id and timestamp produce identical LearningPath output regardless of
the random stream; when some resource is dated (or the uuid/timestamp
differ, as they do between real runs), outputs can differ — see the
counterexample. -/
theorem claim_C1_amended (search : SearchFun) (profile : UserLearningProfile)
    (pathId createdAt : String) (log10 : Int → ℚ) (rand1 rand2 : Nat → ℚ)
    (hnodate : ∀ s q res, search s q = .ok res → ∀ r ∈ res, pubTruthy r = false) :
    runPipeline search profile pathId createdAt log10 rand1 =
      runPipeline search profile pathId createdAt log10 rand2 := by
  rw [runPipeline, runPipeline]
  by_cases hq : (generateQueries profile).isEmpty
  · simp [hq]
  · simp only [hq]
    by_cases hm : (mergedResources search (generateQueries profile)).isEmpty
    · simp [hm]
    · simp only [hm]
      have hrank : rankResources log10 rand1
          (mergedResources search (generateQueries profile)) profile =
          rankResources log10 rand2
            (mergedResources search (generateQueries profile)) profile := by
        apply rankResources_rand_irrel
        intro r hr
        obtain ⟨s, q0, res, hs, hrres⟩ := mem_mergedResources hr
        exact hnodate s q0 res hs r hrres
      rw [hrank]

/-- Undated client behaviour for the claim C1 witness. -/
def searchUndated : SearchFun := fun s _ =>
  if s = "youtube" then .ok [mkRes "https://w/1" "youtube", mkRes "https://w/2" "youtube"]
  else .ok []

/-- Claim C1 (amended) witness: with undated mocked responses, two runs
with different random streams coincide. -/
theorem claim_C1_amended_witness :
    runPipeline searchUndated sampleProfile "pid" "t0" (fun _ => 0) (fun _ => 3 / 10) =
      runPipeline searchUndated sampleProfile "pid" "t0" (fun _ => 0) (fun _ => 9 / 10) :=
  claim_C1_amended searchUndated sampleProfile "pid" "t0" (fun _ => 0) _ _
    (by
      intro s q res h r hr
      by_cases hs : s = "youtube" <;> simp [searchUndated, hs] at h <;> subst h
      · rcases List.mem_cons.mp hr with rfl | hr'
        · rfl
        · simp at hr'
          subst hr'
          rfl
      · simp at hr)

end PathMentor
